import Mathlib

/-!
# clipsniff: the selection client and the polling loop of `clipsniff.cc`

A shallow embedding of `src/clipsniff.cc`: the methods of `class ClipSniff` (`getAtom`,
`getOwner`, `getOwners`, `getData`, `get`), `saveDb`, and the `for (;;)` of `dbStore`.
The constructor of `ClipSniff`, `main` and the opening of the database come before the
loop and are not embedded.

* `std::string` is a Lean `String`, one `Char` per `char`.  The code never looks at a
  `char` except to find the terminating NUL of a C string.
* A `char *` is an `Option String`: `none` is the null pointer, `some s` points at the
  NUL-terminated string whose characters before the terminator are `s`.
* Xlib is the environment.  `Display` holds what the server answers through the
  connection: the atom table, the selection owners, the window names, the window
  properties, and the events that `XNextEvent` is going to deliver.  Every Xlib call is
  appended to `Display.log`.
* The clock and SQLite are the environment too: `SaveAnswers` holds what they answer
  during one call of `saveDb`.
* A function that can `throw`, run into undefined behaviour or block for ever returns
  `Except Fault _`.
-/

set_option autoImplicit false

namespace Clipsniff

/-! ## Xlib -/

abbrev Atom := Nat
abbrev Window := Nat

/-- X.h: `None`, the universal null resource id and null atom. -/
def None : Nat := 0

/-- Xatom.h: `XA_STRING`. -/
def XA_STRING : Atom := 31

/-- X.h: the event type code `SelectionNotify`. -/
def SelectionNotify : Nat := 31

/-- Xlib.h: the fields of `XSelectionEvent` that carry protocol data. -/
structure XSelectionEvent where
  requestor : Window
  selection : Atom
  target : Atom
  property : Atom

/-- Xlib.h: the union `XEvent`, reduced to the members the program reads: `type` and
`xselection` (which is meaningful only when `type` is `SelectionNotify`). -/
structure XEvent where
  type : Nat
  xselection : XSelectionEvent

/-- The properties set on windows: `none` when the window has no such property, else
the data that `XGetWindowProperty` hands back in `prop_return` (Xlib always appends one
NUL byte after the data, which is not part of it). -/
abbrev Props := Window → Atom → Option String

/-- One event waiting to be delivered, with the window properties as they are on the
server when the client reads that event. -/
structure Delivery where
  report : XEvent
  props : Props

/-- The Xlib calls the program makes. -/
inductive XCall where
  | XInternAtom (name : String)
  | XGetAtomName (atom : Atom)
  | XGetSelectionOwner (selection : Atom)
  | XFetchName (w : Window)
  | XConvertSelection (selection target property : Atom) (requestor : Window)
  | XNextEvent
  | XGetWindowProperty (w : Window) (property : Atom)
  deriving DecidableEq, Repr

/-- The connection (`Display *`) together with what the server answers through it. -/
structure Display where
  /-- The atom table of the server: the atom of `atoms[i]` is `i + 1`. -/
  atoms : List String
  /-- Owner window of each selection, `None` when it has no owner. -/
  selectionOwner : Atom → Window
  /-- What `XFetchName` stores in `*window_name_return`; the null pointer when the
  window has no name. -/
  wmName : Window → Option String
  /-- The window properties as the server has them now. -/
  props : Props
  /-- The events `XNextEvent` will return, oldest first.  When this list is used up
  no further event ever arrives. -/
  queue : List Delivery
  /-- The Xlib calls made so far, oldest first. -/
  log : List XCall

/-- Xlib: `XInternAtom(display, name, True)`: the atom called `name` when the
server has one, `None` otherwise; the atom is never created. -/
def XInternAtom (d : Display) (name : String) : Atom × Display :=
  (if d.atoms.indexOf name < d.atoms.length then d.atoms.indexOf name + 1 else None,
   { d with log := d.log ++ [XCall.XInternAtom name] })

/-- Xlib: `XGetAtomName(display, atom)`: the name of the atom, the null pointer when
there is no such atom. -/
def XGetAtomName (d : Display) (atom : Atom) : Option String × Display :=
  (if atom = None then none else d.atoms.get? (atom - 1),
   { d with log := d.log ++ [XCall.XGetAtomName atom] })

/-- Xlib: `XGetSelectionOwner(display, selection)`. -/
def XGetSelectionOwner (d : Display) (selection : Atom) : Window × Display :=
  (d.selectionOwner selection,
   { d with log := d.log ++ [XCall.XGetSelectionOwner selection] })

/-- Xlib: `XFetchName(display, w, &window_name)`: the value stored in `window_name`. -/
def XFetchName (d : Display) (w : Window) : Option String × Display :=
  (d.wmName w, { d with log := d.log ++ [XCall.XFetchName w] })

/-- Xlib: `XConvertSelection(display, selection, target, property, requestor, time)`.
The request is sent; its answer comes back later through the event queue. -/
def XConvertSelection (d : Display) (selection target property : Atom)
    (requestor : Window) : Display :=
  { d with log := d.log ++ [XCall.XConvertSelection selection target property requestor] }

/-- Xlib: `XNextEvent(display, &report)` when `dv` is the oldest pending event and
`rest` are the later ones. -/
def XNextEvent (d : Display) (dv : Delivery) (rest : List Delivery) : XEvent × Display :=
  (dv.report,
   { d with props := dv.props, queue := rest, log := d.log ++ [XCall.XNextEvent] })

/-- Xlib: `XGetWindowProperty(display, w, property, 0, ~0L, False, AnyPropertyType, ...)`:
the value stored in `prop_return`, the whole property; null when `w` has no such
property. -/
def XGetWindowProperty (d : Display) (w : Window) (property : Atom) :
    Option String × Display :=
  (d.props w property, { d with log := d.log ++ [XCall.XGetWindowProperty w property] })

/-! ## Strings and failures -/

/-- How a call can end other than by returning. -/
inductive Fault where
  /-- Line 87: `throw ErrBase(msg)`. -/
  | ErrBase (msg : String)
  /-- A `std::string` is constructed from a null `char *`: undefined behaviour. -/
  | nullString
  /-- The call to `XNextEvent` never returns: no event arrives any more. -/
  | blocked
  deriving DecidableEq, Repr

/-- The characters of a buffer seen as a C string: those before the first NUL. -/
def cstr (buf : String) : String :=
  String.mk (buf.data.takeWhile (fun c => c != Char.ofNat 0))

/-- The constructor `std::string(const char *)`. -/
def stdString : Option String → Except Fault String
  | none => Except.error Fault.nullString
  | some s => Except.ok s

/-! ## class ClipSniff -/

/-- Lines 100-113: the data members of `class ClipSniff`. -/
structure ClipSniff where
  display : Display
  displayName : String
  myWindow : Window

/-- Lines 158-166: `ClipSniff::getAtom`. -/
def getAtom (cs : ClipSniff) (which : String) : Except Fault (Atom × ClipSniff) :=
  match XInternAtom cs.display which with
  | (a, d) =>
    if a = None then
      Except.error (Fault.ErrBase ("Can't find atom: " ++ which))
    else
      Except.ok (a, { cs with display := d })

/-- Lines 119-133: `ClipSniff::getOwner`. -/
def getOwner (cs : ClipSniff) (which : String) : Except Fault (String × ClipSniff) :=
  match getAtom cs which with
  | Except.error e => Except.error e
  | Except.ok (atom, cs1) =>
    match XGetAtomName cs1.display atom with
    | (p, d1) =>
      match stdString p with
      | Except.error e => Except.error e
      | Except.ok _atomName =>
        match XGetSelectionOwner d1 atom with
        | (win, d2) =>
          if None = win then
            Except.error (Fault.ErrBase "Can't get selection owner")
          else
            match XFetchName d2 win with
            | (windowName, d3) =>
              match stdString windowName with
              | Except.error e => Except.error e
              | Except.ok ret => Except.ok (ret, { cs1 with display := d3 })

/-- Lines 148-153: `ClipSniff::getOwners`.  C++ leaves open which of the two arguments of
the `std::pair` constructor is evaluated first; they are taken from left to right. -/
def getOwners (cs : ClipSniff) : Except Fault ((String × String) × ClipSniff) :=
  match getOwner cs "PRIMARY" with
  | Except.error e => Except.error e
  | Except.ok (o1, cs1) =>
    match getOwner cs1 "CLIPBOARD" with
    | Except.error e => Except.error e
    | Except.ok (o2, cs2) => Except.ok ((o1, o2), cs2)

/-- Lines 190-215: the `for (;;)` of `getData`, by recursion on the pending events. -/
def awaitNotify (myWindow : Window) (d : Display) :
    List Delivery → Except Fault (String × Display)
  | [] => Except.error Fault.blocked
  | dv :: rest =>
    match XNextEvent d dv rest with
    | (report, d1) =>
      if report.type = SelectionNotify then
        if report.xselection.property = None then
          Except.ok ("", d1)
        else
          match XGetWindowProperty d1 myWindow report.xselection.property with
          | (buf, d2) =>
            match stdString (buf.map cstr) with
            | Except.error e => Except.error e
            | Except.ok s => Except.ok (s, d2)
      else
        awaitNotify myWindow d1 rest

/-- Lines 173-216: `ClipSniff::getData`. -/
def getData (cs : ClipSniff) (atom : String) : Except Fault (String × ClipSniff) :=
  match getAtom cs atom with
  | Except.error e => Except.error e
  | Except.ok (a, cs1) =>
    match awaitNotify cs1.myWindow
        (XConvertSelection cs1.display a XA_STRING XA_STRING cs1.myWindow)
        cs1.display.queue with
    | Except.error e => Except.error e
    | Except.ok (s, d) => Except.ok (s, { cs1 with display := d })

/-- Lines 138-143: `ClipSniff::get`.  C++ leaves open which of the two arguments of the
`std::pair` constructor is evaluated first; they are taken from left to right. -/
def get (cs : ClipSniff) : Except Fault ((String × String) × ClipSniff) :=
  match getData cs "PRIMARY" with
  | Except.error e => Except.error e
  | Except.ok (p, cs1) =>
    match getData cs1 "CLIPBOARD" with
    | Except.error e => Except.error e
    | Except.ok (c, cs2) => Except.ok ((p, c), cs2)

/-! ## saveDb and dbStore -/

/-- sqlite3.h: `SQLITE_OK`. -/
def SQLITE_OK : Int := 0

/-- sqlite3.h: `SQLITE_DONE`. -/
def SQLITE_DONE : Int := 101

/-- A row of the table `clipboard`, columns `(ts,name,owner,data)` as in the `INSERT`
statement of lines 307-309. -/
structure Record where
  ts : String
  name : String
  owner : String
  data : String
  deriving DecidableEq, Repr

/-- What the C library and SQLite answer during one call of `saveDb`: the local time
as `strftime` writes it into `timebuf`, and the values returned by the four calls of
`sqlite3_bind_text` and by `sqlite3_step`. -/
structure SaveAnswers where
  timebuf : String
  bind1 : Int
  bind2 : Int
  bind3 : Int
  bind4 : Int
  step : Int
  deriving DecidableEq, Repr

/-- Every call SQLite receives during one `saveDb` succeeds. -/
def SaveAnswers.accepted (s : SaveAnswers) : Prop :=
  s.bind1 = SQLITE_OK ∧ s.bind2 = SQLITE_OK ∧ s.bind3 = SQLITE_OK ∧ s.bind4 = SQLITE_OK ∧
    s.step = SQLITE_DONE

instance (s : SaveAnswers) : Decidable s.accepted := by
  unfold SaveAnswers.accepted; infer_instance

/-- Lines 254-292: `saveDb`.  Returns the row that `sqlite3_step` inserted: the four
values bound to the statement, in the order of their parameters. -/
def saveDb (which data owner : String) (stmt : SaveAnswers) : Except Fault Record :=
  if SQLITE_OK ≠ stmt.bind1 then Except.error (Fault.ErrBase "sqlite3_bind_text(1)")
  else if SQLITE_OK ≠ stmt.bind2 then Except.error (Fault.ErrBase "sqlite3_bind_text(2)")
  else if SQLITE_OK ≠ stmt.bind3 then Except.error (Fault.ErrBase "sqlite3_bind_text(3)")
  else if SQLITE_OK ≠ stmt.bind4 then Except.error (Fault.ErrBase "sqlite3_bind_text(4)")
  else if SQLITE_DONE ≠ stmt.step then Except.error (Fault.ErrBase "sqlite3_step()")
  else Except.ok { ts := stmt.timebuf, name := which, owner := owner, data := data }

/-- The calls the body of the polling loop makes. -/
inductive Call where
  | get
  | getOwners
  | saveDb (which data owner : String)
  | sleep (seconds : Nat)
  deriving DecidableEq, Repr

/-- What the loop has done so far: the calls it made and the rows it inserted, oldest
first. -/
structure Progress where
  calls : List Call
  rows : List Record
  deriving DecidableEq, Repr

/-- One statement `saveDb(which, data, owner, stmt);` of the loop body: the progress
after it, and the exception it throws if any. -/
def callSaveDb (which data owner : String) (stmt : SaveAnswers) (p : Progress) :
    Progress × Option Fault :=
  match saveDb which data owner stmt with
  | Except.error e =>
    ({ calls := p.calls ++ [Call.saveDb which data owner], rows := p.rows }, some e)
  | Except.ok r =>
    ({ calls := p.calls ++ [Call.saveDb which data owner], rows := p.rows ++ [r] }, none)

/-- One pass through the body of the loop: the calls made, the rows inserted, and either
the value of `lastData` at the end of the body or the exception that leaves the loop. -/
structure Pass where
  calls : List Call
  rows : List Record
  lastData : Except Fault (String × String)

/-- Lines 318-334: the body of the `for (;;)` of `dbStore`.  `stmt1` and `stmt2` are the
answers a `saveDb("PRIMARY", ...)` and a `saveDb("CLIPBOARD", ...)` get in this pass. -/
def dbStoreBody (cs : ClipSniff) (lastData : String × String)
    (stmt1 stmt2 : SaveAnswers) : Pass :=
  match get cs with
  | Except.error e => { calls := [Call.get], rows := [], lastData := Except.error e }
  | Except.ok (data, cs1) =>
    if data = lastData then
      { calls := [Call.get, Call.sleep 1], rows := [], lastData := Except.ok lastData }
    else
      match getOwners cs1 with
      | Except.error e =>
        { calls := [Call.get, Call.getOwners], rows := [], lastData := Except.error e }
      | Except.ok (owners, _) =>
        match (if data.1 ≠ lastData.1 then
                callSaveDb "PRIMARY" data.1 owners.1 stmt1
                  { calls := [Call.get, Call.getOwners], rows := [] }
              else ({ calls := [Call.get, Call.getOwners], rows := [] }, none)) with
        | (p, some e) => { calls := p.calls, rows := p.rows, lastData := Except.error e }
        | (p, none) =>
          match (if data.2 ≠ lastData.2 then
                  callSaveDb "CLIPBOARD" data.2 owners.2 stmt2 p
                else (p, none)) with
          | (q, some e) => { calls := q.calls, rows := q.rows, lastData := Except.error e }
          | (q, none) => { calls := q.calls, rows := q.rows, lastData := Except.ok data }

/-- What one pass of the loop meets: the state of the display, and the answers of the
clock and of SQLite. -/
structure World where
  display : Display
  stmt1 : SaveAnswers
  stmt2 : SaveAnswers

/-- The object `cs` of line 315 on the display as a pass of the loop finds it. -/
def World.cs (w : World) (displayName : String) (myWindow : Window) : ClipSniff :=
  { display := w.display, displayName := displayName, myWindow := myWindow }

/-- Lines 317-335: the `for (;;)` of `dbStore`, run for as many passes as there are
worlds, or until an exception leaves it. -/
def dbStoreLoop (displayName : String) (myWindow : Window) :
    String × String → List World → Pass
  | lastData, [] => { calls := [], rows := [], lastData := Except.ok lastData }
  | lastData, w :: ws =>
    match dbStoreBody (w.cs displayName myWindow) lastData w.stmt1 w.stmt2 with
    | { calls := c, rows := r, lastData := Except.error e } =>
      { calls := c, rows := r, lastData := Except.error e }
    | { calls := c, rows := r, lastData := Except.ok next } =>
      match dbStoreLoop displayName myWindow next ws with
      | { calls := c2, rows := r2, lastData := l } =>
        { calls := c ++ c2, rows := r ++ r2, lastData := l }

/-- Line 316: `std::pair<std::string,std::string> lastData;`. -/
def initialLastData : String × String := ("", "")

/-! ## Displays after a call -/

/-- The events read by `getData` up to and including the one that ends the wait leave the
display as follows. -/
def afterEvents (d : Display) (n : Nat) (dv : Delivery) (post : List Delivery) : Display :=
  { d with props := dv.props, queue := post,
           log := d.log ++ List.replicate (n + 1) XCall.XNextEvent }

/-- The display after `getData` has resolved the atom and sent its request. -/
def requested (cs : ClipSniff) (which : String) : Display :=
  XConvertSelection (XInternAtom cs.display which).2 (XInternAtom cs.display which).1
    XA_STRING XA_STRING cs.myWindow

/-- The part of a display that the calls of the client never change. -/
def SameServer (d d1 : Display) : Prop :=
  d1.atoms = d.atoms ∧ d1.selectionOwner = d.selectionOwner ∧ d1.wmName = d.wmName

/-! ## Concrete displays

The atom table is the one every X server starts with (Xatom.h, atoms 1 to 68) followed by
`CLIPBOARD`, which some client has interned. -/

/-- Xatom.h: the predefined atoms, in the order of their values 1 to 68. -/
def predefinedAtoms : List String :=
  ["PRIMARY", "SECONDARY", "ARC", "ATOM", "BITMAP", "CARDINAL", "COLORMAP", "CURSOR",
   "CUT_BUFFER0", "CUT_BUFFER1", "CUT_BUFFER2", "CUT_BUFFER3", "CUT_BUFFER4", "CUT_BUFFER5",
   "CUT_BUFFER6", "CUT_BUFFER7", "DRAWABLE", "FONT", "INTEGER", "PIXMAP", "POINT",
   "RECTANGLE", "RESOURCE_MANAGER", "RGB_COLOR_MAP", "RGB_BEST_MAP", "RGB_BLUE_MAP",
   "RGB_DEFAULT_MAP", "RGB_GRAY_MAP", "RGB_GREEN_MAP", "RGB_RED_MAP", "STRING", "VISUALID",
   "WINDOW", "WM_COMMAND", "WM_HINTS", "WM_CLIENT_MACHINE", "WM_ICON_NAME", "WM_ICON_SIZE",
   "WM_NAME", "WM_NORMAL_HINTS", "WM_SIZE_HINTS", "WM_ZOOM_HINTS", "MIN_SPACE", "NORM_SPACE",
   "MAX_SPACE", "END_SPACE", "SUPERSCRIPT_X", "SUPERSCRIPT_Y", "SUBSCRIPT_X", "SUBSCRIPT_Y",
   "UNDERLINE_POSITION", "UNDERLINE_THICKNESS", "STRIKEOUT_ASCENT", "STRIKEOUT_DESCENT",
   "ITALIC_ANGLE", "X_HEIGHT", "QUAD_WIDTH", "WEIGHT", "POINT_SIZE", "RESOLUTION",
   "COPYRIGHT", "NOTICE", "FONT_NAME", "FAMILY_NAME", "FULL_NAME", "CAP_HEIGHT", "WM_CLASS",
   "WM_TRANSIENT_FOR"]

/-- The atom of `PRIMARY` in the example displays. -/
def primaryAtom : Atom := 1

/-- The atom of `CLIPBOARD` in the example displays. -/
def clipboardAtom : Atom := 69

/-- The window the example client created. -/
def exWindow : Window := 0x2000001

/-- A window of the application called AppX. -/
def winX : Window := 0x1400003

/-- A window of the application called AppY. -/
def winY : Window := 0x1800007

/-- The window names in the example displays; every other window has none. -/
def exNames : Window → Option String := fun w =>
  if w = winX then some "AppX" else if w = winY then some "AppY" else none

/-- No window has any property. -/
def noProps : Props := fun _ _ => none

/-- The property `STRING` of `exWindow` holds `v`; there is no other property. -/
def stringProp (v : String) : Props := fun w p =>
  if w = exWindow ∧ p = XA_STRING then some v else none

/-- The `SelectionNotify` a refused conversion of `selection` ends with: property `None`. -/
def refusal (selection : Atom) (props : Props) : Delivery :=
  { report := { type := SelectionNotify,
                xselection := { requestor := exWindow, selection := selection,
                                target := XA_STRING, property := None } },
    props := props }

/-- The `SelectionNotify` sent after the owner of `selection` has stored `v` in the
property `STRING` of `exWindow`. -/
def reply (selection : Atom) (v : String) : Delivery :=
  { report := { type := SelectionNotify,
                xselection := { requestor := exWindow, selection := selection,
                                target := XA_STRING, property := XA_STRING } },
    props := stringProp v }

/-- X.h: event type 34, `MappingNotify`, which the server sends to every client. -/
def mappingNotify (props : Props) : Delivery :=
  { report := { type := 34,
                xselection := { requestor := 0, selection := 0, target := 0, property := 0 } },
    props := props }

/-- An example display: the owners of the two selections and the pending events. -/
def exDisplay (ownerPrimary ownerClipboard : Window) (queue : List Delivery) : Display :=
  { atoms := predefinedAtoms ++ ["CLIPBOARD"],
    selectionOwner := fun a =>
      if a = primaryAtom then ownerPrimary
      else if a = clipboardAtom then ownerClipboard else None,
    wmName := exNames,
    props := noProps,
    queue := queue,
    log := [] }

/-- The example client on a display. -/
def exClient (d : Display) : ClipSniff :=
  { display := d, displayName := ":0", myWindow := exWindow }

/-- Neither selection has an owner; both conversions are refused. -/
def idleDisplay : Display :=
  exDisplay None None [refusal primaryAtom noProps, refusal clipboardAtom noProps]

/-- `PRIMARY` is owned by AppX and holds "hello"; `CLIPBOARD` has no owner. -/
def helloDisplay : Display :=
  exDisplay winX None [reply primaryAtom "hello", refusal clipboardAtom (stringProp "hello")]

/-- `PRIMARY` is owned by AppX and holds "a"; `CLIPBOARD` is owned by AppY and holds "b". -/
def bothDisplay : Display :=
  exDisplay winX winY [reply primaryAtom "a", reply clipboardAtom "b"]

/-- `PRIMARY` has lost its owner; `CLIPBOARD` is owned by AppY and holds "note". -/
def lostDisplay : Display :=
  exDisplay None winY [refusal primaryAtom noProps, reply clipboardAtom "note"]

/-- `PRIMARY` is owned by a window that has no name. -/
def unnamedDisplay : Display :=
  exDisplay 0x1c00001 None []

/-- The owner of `PRIMARY` stored a value with a NUL in the middle. -/
def nulDisplay : Display :=
  exDisplay winX None [mappingNotify noProps, reply primaryAtom "ab\x00cd"]

/-- A `SelectionNotify` about `CLIPBOARD` is pending ahead of the answer to the request
for `PRIMARY`. -/
def staleDisplay : Display :=
  exDisplay winX None [refusal clipboardAtom noProps, reply primaryAtom "hello"]

/-- The display `staleDisplay` without the pending `SelectionNotify` about `CLIPBOARD`. -/
def freshDisplay : Display :=
  exDisplay winX None [reply primaryAtom "hello"]

/-- The clock reads `ts` and SQLite accepts the row. -/
def accepting (ts : String) : SaveAnswers :=
  { timebuf := ts, bind1 := SQLITE_OK, bind2 := SQLITE_OK, bind3 := SQLITE_OK,
    bind4 := SQLITE_OK, step := SQLITE_DONE }

/-- The pass that finds neither selection owned. -/
def idleWorld : World :=
  { display := idleDisplay, stmt1 := accepting "t1", stmt2 := accepting "t2" }

/-- The pass that finds `PRIMARY` owned by AppX with "hello" and `CLIPBOARD` unowned. -/
def helloWorld : World :=
  { display := helloDisplay, stmt1 := accepting "t3", stmt2 := accepting "t4" }

/-- The pass that finds "a" owned by AppX in `PRIMARY` and "b" owned by AppY in
`CLIPBOARD`. -/
def bothWorld : World :=
  { display := bothDisplay, stmt1 := accepting "t5", stmt2 := accepting "t6" }

/-- The rows of the selection called `sel`, in the order of insertion. -/
def rowsOf (sel : String) (rows : List Record) : List Record :=
  rows.filter (fun r => r.name = sel)

/-! ## Helper lemmas: Xlib and the selection client -/

theorem atomName_of_intern (d : Display) (name : String)
    (h : (XInternAtom d name).1 ≠ None) :
    d.atoms.get? ((XInternAtom d name).1 - 1) = some name := by
  unfold XInternAtom None at *
  by_cases hlt : d.atoms.indexOf name < d.atoms.length
  · simp only [hlt, if_true, Nat.add_sub_cancel]
    rw [List.get?_eq_getElem?, List.getElem?_eq_getElem hlt, List.getElem_indexOf hlt]
  · simp [hlt] at h

theorem getAtom_ok (cs : ClipSniff) (which : String)
    (h : (XInternAtom cs.display which).1 ≠ None) :
    getAtom cs which =
      Except.ok ((XInternAtom cs.display which).1,
                 { cs with display := (XInternAtom cs.display which).2 }) := by
  unfold getAtom
  simp [h]

theorem getAtom_error (cs : ClipSniff) (which : String)
    (h : (XInternAtom cs.display which).1 = None) :
    getAtom cs which = Except.error (Fault.ErrBase ("Can't find atom: " ++ which)) := by
  unfold getAtom
  simp [h]

/-- Events of another type than `SelectionNotify` are read and dropped; the first
`SelectionNotify` ends the wait. -/
theorem awaitNotify_spec (myWindow : Window) (pre post : List Delivery) (dv : Delivery)
    (hpre : ∀ e ∈ pre, e.report.type ≠ SelectionNotify)
    (hdv : dv.report.type = SelectionNotify) (d : Display) :
    awaitNotify myWindow d (pre ++ dv :: post) =
      if dv.report.xselection.property = None then
        Except.ok ("", afterEvents d pre.length dv post)
      else
        match dv.props myWindow dv.report.xselection.property with
        | none => Except.error Fault.nullString
        | some buf =>
          Except.ok (cstr buf,
            (XGetWindowProperty (afterEvents d pre.length dv post) myWindow
              dv.report.xselection.property).2) := by
  induction pre generalizing d with
  | nil =>
    simp only [List.nil_append, awaitNotify, XNextEvent, hdv, if_true, List.length_nil]
    by_cases hp : dv.report.xselection.property = None
    · simp [hp, afterEvents]
    · simp only [hp, if_false, XGetWindowProperty, afterEvents]
      cases hb : dv.props myWindow dv.report.xselection.property <;>
        simp [stdString]
  | cons e pre ih =>
    have he : e.report.type ≠ SelectionNotify := hpre e (List.mem_cons_self _ _)
    have hpre2 : ∀ x ∈ pre, x.report.type ≠ SelectionNotify :=
      fun x hx => hpre x (List.mem_cons_of_mem _ hx)
    simp only [List.cons_append, awaitNotify, XNextEvent, he, if_false, List.append_eq]
    rw [ih hpre2]
    simp [afterEvents, XGetWindowProperty, List.replicate_succ, List.append_assoc]

/-- What `getData` returns when the atom resolves and a `SelectionNotify` is among the
pending events. -/
theorem getData_spec (cs : ClipSniff) (which : String) (pre post : List Delivery)
    (dv : Delivery) (hatom : (XInternAtom cs.display which).1 ≠ None)
    (hqueue : cs.display.queue = pre ++ dv :: post)
    (hpre : ∀ e ∈ pre, e.report.type ≠ SelectionNotify)
    (hdv : dv.report.type = SelectionNotify) :
    getData cs which =
      if dv.report.xselection.property = None then
        Except.ok ("", { cs with display := afterEvents (requested cs which) pre.length dv post })
      else
        match dv.props cs.myWindow dv.report.xselection.property with
        | none => Except.error Fault.nullString
        | some buf =>
          Except.ok (cstr buf,
            { cs with display :=
                (XGetWindowProperty (afterEvents (requested cs which) pre.length dv post)
                  cs.myWindow dv.report.xselection.property).2 }) := by
  unfold getData
  rw [getAtom_ok cs which hatom]
  have hq : (XInternAtom cs.display which).2.queue = pre ++ dv :: post := by
    simpa [XInternAtom] using hqueue
  simp only [hq]
  rw [awaitNotify_spec cs.myWindow pre post dv hpre hdv]
  by_cases hp : dv.report.xselection.property = None
  · simp [hp, requested]
  · simp only [hp, if_false]
    cases hb : dv.props cs.myWindow dv.report.xselection.property <;> simp [requested]

/-- What `getOwner` returns when the atom resolves. -/
theorem getOwner_spec (cs : ClipSniff) (which : String)
    (hatom : (XInternAtom cs.display which).1 ≠ None) :
    getOwner cs which =
      if cs.display.selectionOwner (XInternAtom cs.display which).1 = None then
        Except.error (Fault.ErrBase "Can't get selection owner")
      else
        match cs.display.wmName (cs.display.selectionOwner (XInternAtom cs.display which).1) with
        | none => Except.error Fault.nullString
        | some name =>
          Except.ok (name,
            { cs with display :=
                { cs.display with log := cs.display.log ++
                    [XCall.XInternAtom which,
                     XCall.XGetAtomName (XInternAtom cs.display which).1,
                     XCall.XGetSelectionOwner (XInternAtom cs.display which).1,
                     XCall.XFetchName
                       (cs.display.selectionOwner (XInternAtom cs.display which).1)] } }) := by
  unfold getOwner
  rw [getAtom_ok cs which hatom]
  have hname := atomName_of_intern cs.display which hatom
  have hne : ¬ (XInternAtom cs.display which).1 = None := hatom
  simp only [XGetAtomName, hne, if_false]
  have hat : (XInternAtom cs.display which).2.atoms = cs.display.atoms := rfl
  rw [hat, hname]
  simp only [stdString, XGetSelectionOwner, XFetchName]
  have hso : (XInternAtom cs.display which).2.selectionOwner = cs.display.selectionOwner := rfl
  have hwm : (XInternAtom cs.display which).2.wmName = cs.display.wmName := rfl
  by_cases ho : cs.display.selectionOwner (XInternAtom cs.display which).1 = None
  · simp [hso, ho]
  · have ho2 : ¬ None = cs.display.selectionOwner (XInternAtom cs.display which).1 :=
      fun h => ho h.symm
    simp only [hso, ho, ho2, if_false]
    have hlog : (XInternAtom cs.display which).2.log =
        cs.display.log ++ [XCall.XInternAtom which] := rfl
    have hpr : (XInternAtom cs.display which).2.props = cs.display.props := rfl
    have hqu : (XInternAtom cs.display which).2.queue = cs.display.queue := rfl
    cases hn : cs.display.wmName (cs.display.selectionOwner (XInternAtom cs.display which).1) <;>
      simp only [hwm, hn, hlog, hpr, hqu, List.append_assoc, List.singleton_append,
        List.cons_append, List.nil_append]

theorem cstr_eq_self (v : String) (h : Char.ofNat 0 ∉ v.data) : cstr v = v := by
  unfold cstr
  have : v.data.takeWhile (fun c => c != Char.ofNat 0) = v.data := by
    rw [List.takeWhile_eq_self_iff]
    intro c hc
    simp only [bne_iff_ne, ne_eq]
    intro h0
    exact h (h0 ▸ hc)
  rw [this]

/-! ## The selection client: claims -/

/-- C5: when the atom of the selection resolves (so that the request is sent) and the
first `SelectionNotify` among the pending events, after any number of events of other
types, carries the property `None`, `getData` returns the empty string; it reads the
events up to that one and makes no call of `XGetWindowProperty`.  This holds for every
selection name, so for "PRIMARY" and for "CLIPBOARD". -/
theorem getData_none_property_returns_empty (cs : ClipSniff) (which : String)
    (pre post : List Delivery) (dv : Delivery)
    (hatom : (XInternAtom cs.display which).1 ≠ None)
    (hqueue : cs.display.queue = pre ++ dv :: post)
    (hpre : ∀ e ∈ pre, e.report.type ≠ SelectionNotify)
    (hdv : dv.report.type = SelectionNotify)
    (hnone : dv.report.xselection.property = None) :
    ∃ cs1, getData cs which = Except.ok ("", cs1) ∧
      cs1.display.queue = post ∧
      cs1.display.log = cs.display.log ++
        ([XCall.XInternAtom which,
          XCall.XConvertSelection (XInternAtom cs.display which).1 XA_STRING XA_STRING
            cs.myWindow] ++ List.replicate (pre.length + 1) XCall.XNextEvent) ∧
      ∀ w p, XCall.XGetWindowProperty w p ∈ cs1.display.log →
        XCall.XGetWindowProperty w p ∈ cs.display.log := by
  refine ⟨{ cs with display := afterEvents (requested cs which) pre.length dv post },
    ?_, ?_, ?_, ?_⟩
  · rw [getData_spec cs which pre post dv hatom hqueue hpre hdv, if_pos hnone]
  · rfl
  · simp [afterEvents, requested, XConvertSelection, XInternAtom]
  · intro w p hmem
    simp only [afterEvents, requested, XConvertSelection, XInternAtom, List.mem_append,
      List.mem_singleton, List.mem_replicate] at hmem
    rcases hmem with ((h | h) | h) | h
    · exact h
    · cases h
    · cases h
    · cases h.2

/-- C5, at a concrete display: `CLIPBOARD` has no owner, a `MappingNotify` precedes the
refusal. -/
theorem getData_none_property_returns_empty_witness :
    ∃ cs1, getData (exClient (exDisplay winX None
        [mappingNotify noProps, refusal clipboardAtom noProps])) "CLIPBOARD"
      = Except.ok ("", cs1) ∧ cs1.display.queue = [] ∧
      cs1.display.log = [] ++
        ([XCall.XInternAtom "CLIPBOARD",
          XCall.XConvertSelection clipboardAtom XA_STRING XA_STRING exWindow] ++
          List.replicate 2 XCall.XNextEvent) ∧
      ∀ w p, XCall.XGetWindowProperty w p ∈ cs1.display.log →
        XCall.XGetWindowProperty w p ∈ ([] : List XCall) :=
  getData_none_property_returns_empty
    (exClient (exDisplay winX None [mappingNotify noProps, refusal clipboardAtom noProps]))
    "CLIPBOARD" [mappingNotify noProps] [] (refusal clipboardAtom noProps)
    (by decide) rfl (by decide) rfl rfl

/-- C6 as stated fails: the property holds the five bytes `a b NUL c d` and `getData`
returns the two bytes `a b`. -/
theorem getData_truncates_at_nul :
    nulDisplay.queue = [mappingNotify noProps, reply primaryAtom "ab\x00cd"] ∧
    (reply primaryAtom "ab\x00cd").report.xselection.property ≠ None ∧
    (reply primaryAtom "ab\x00cd").props exWindow
      (reply primaryAtom "ab\x00cd").report.xselection.property = some "ab\x00cd" ∧
    (∃ cs1, getData (exClient nulDisplay) "PRIMARY" = Except.ok ("ab", cs1)) ∧
    "ab" ≠ "ab\x00cd" :=
  ⟨rfl, by decide, by decide, ⟨_, rfl⟩, by decide⟩

/-- C6, amended: when the first `SelectionNotify` names a property other than `None` and
that property of the client's window holds `v`, `getData` returns the characters of `v`
that precede its first NUL, and so `v` itself when `v` contains no NUL. -/
theorem getData_returns_property_up_to_nul (cs : ClipSniff) (which : String)
    (pre post : List Delivery) (dv : Delivery) (v : String)
    (hatom : (XInternAtom cs.display which).1 ≠ None)
    (hqueue : cs.display.queue = pre ++ dv :: post)
    (hpre : ∀ e ∈ pre, e.report.type ≠ SelectionNotify)
    (hdv : dv.report.type = SelectionNotify)
    (hprop : dv.report.xselection.property ≠ None)
    (hv : dv.props cs.myWindow dv.report.xselection.property = some v) :
    (∃ cs1, getData cs which = Except.ok (cstr v, cs1)) ∧
      cstr v = String.mk (v.data.takeWhile (fun c => c != Char.ofNat 0)) ∧
      (Char.ofNat 0 ∉ v.data → cstr v = v) := by
  refine ⟨?_, rfl, cstr_eq_self v⟩
  rw [getData_spec cs which pre post dv hatom hqueue hpre hdv, if_neg hprop]
  simp only [hv]
  exact ⟨_, rfl⟩

/-- C6, amended, at a concrete display: the property holds "hello". -/
theorem getData_returns_property_up_to_nul_witness :
    (∃ cs1, getData (exClient helloDisplay) "PRIMARY" = Except.ok (cstr "hello", cs1)) ∧
      cstr "hello" = String.mk ("hello".data.takeWhile (fun c => c != Char.ofNat 0)) ∧
      (Char.ofNat 0 ∉ "hello".data → cstr "hello" = "hello") :=
  getData_returns_property_up_to_nul (exClient helloDisplay) "PRIMARY" []
    [refusal clipboardAtom (stringProp "hello")] (reply primaryAtom "hello") "hello"
    (by decide) rfl (by decide) rfl (by decide) (by decide)

/-- C7: for a selection name whose atom resolves, `getOwner` throws
"Can't get selection owner" exactly when `XGetSelectionOwner` answers `None`; when it
answers a window and that window has a name, `getOwner` returns the name. -/
theorem getOwner_throws_iff_no_owner (cs : ClipSniff) (which : String)
    (hatom : (XInternAtom cs.display which).1 ≠ None) :
    (getOwner cs which = Except.error (Fault.ErrBase "Can't get selection owner") ↔
        cs.display.selectionOwner (XInternAtom cs.display which).1 = None) ∧
      ∀ name, cs.display.selectionOwner (XInternAtom cs.display which).1 ≠ None →
        cs.display.wmName (cs.display.selectionOwner (XInternAtom cs.display which).1)
          = some name →
        ∃ cs1, getOwner cs which = Except.ok (name, cs1) := by
  rw [getOwner_spec cs which hatom]
  constructor
  · constructor
    · intro h
      by_contra ho
      rw [if_neg ho] at h
      cases hn : cs.display.wmName (cs.display.selectionOwner (XInternAtom cs.display which).1)
      · rw [hn] at h
        simp at h
      · rw [hn] at h
        simp at h
    · intro ho
      rw [if_pos ho]
  · intro name ho hn
    rw [if_neg ho]
    simp only [hn]
    exact ⟨_, rfl⟩

/-- C7 at a concrete display: `PRIMARY` is owned by AppX, `CLIPBOARD` by nobody. -/
theorem getOwner_throws_iff_no_owner_witness :
    ((getOwner (exClient helloDisplay) "CLIPBOARD"
          = Except.error (Fault.ErrBase "Can't get selection owner") ↔
        helloDisplay.selectionOwner (XInternAtom helloDisplay "CLIPBOARD").1 = None) ∧
      ∀ name, helloDisplay.selectionOwner (XInternAtom helloDisplay "CLIPBOARD").1 ≠ None →
        helloDisplay.wmName (helloDisplay.selectionOwner
          (XInternAtom helloDisplay "CLIPBOARD").1) = some name →
        ∃ cs1, getOwner (exClient helloDisplay) "CLIPBOARD" = Except.ok (name, cs1)) ∧
    getOwner (exClient helloDisplay) "CLIPBOARD"
      = Except.error (Fault.ErrBase "Can't get selection owner") ∧
    ∃ cs1, getOwner (exClient helloDisplay) "PRIMARY" = Except.ok ("AppX", cs1) :=
  ⟨getOwner_throws_iff_no_owner (exClient helloDisplay) "CLIPBOARD" (by decide), rfl, _, rfl⟩

/-- C8: the owner of `PRIMARY` is a window without a name, `XFetchName` stores a null
pointer, and `getOwner` constructs a `std::string` from it. -/
theorem getOwner_unnamed_window_null_string :
    unnamedDisplay.selectionOwner (XInternAtom unnamedDisplay "PRIMARY").1 = 0x1c00001 ∧
    unnamedDisplay.wmName 0x1c00001 = none ∧
    getOwner (exClient unnamedDisplay) "PRIMARY" = Except.error Fault.nullString :=
  ⟨by decide, by decide, rfl⟩

/-- C9 as stated fails: a `SelectionNotify` about `CLIPBOARD` is pending when the request
for `PRIMARY` is made.  It is not skipped: it ends the wait, `getData` returns the empty
string and the answer to the request stays in the queue.  Without that event the same
call returns "hello". -/
theorem getData_takes_foreign_notify :
    staleDisplay.queue = refusal clipboardAtom noProps :: freshDisplay.queue ∧
    (refusal clipboardAtom noProps).report.xselection.selection
      ≠ (XInternAtom staleDisplay "PRIMARY").1 ∧
    (∃ cs1, getData (exClient staleDisplay) "PRIMARY" = Except.ok ("", cs1) ∧
      cs1.display.queue = [reply primaryAtom "hello"]) ∧
    (∃ cs1, getData (exClient freshDisplay) "PRIMARY" = Except.ok ("hello", cs1)) ∧
    "" ≠ "hello" :=
  ⟨rfl, by decide, ⟨_, rfl, rfl⟩, ⟨_, rfl⟩, by decide⟩

/-- C9, amended: `getData` drops every pending event whose type is not `SelectionNotify`;
the first `SelectionNotify` decides the result, whatever selection, target and requestor
it names: the empty string when its property is `None`, else the value of that property
of the client's window as a C string.  The events after it stay in the queue. -/
theorem getData_first_notify_decides (cs : ClipSniff) (which : String)
    (pre post : List Delivery) (dv : Delivery)
    (hatom : (XInternAtom cs.display which).1 ≠ None)
    (hqueue : cs.display.queue = pre ++ dv :: post)
    (hpre : ∀ e ∈ pre, e.report.type ≠ SelectionNotify)
    (hdv : dv.report.type = SelectionNotify) :
    (getData cs which).map Prod.fst =
        (if dv.report.xselection.property = None then Except.ok ""
         else stdString ((dv.props cs.myWindow dv.report.xselection.property).map cstr)) ∧
      ∀ s cs1, getData cs which = Except.ok (s, cs1) → cs1.display.queue = post := by
  rw [getData_spec cs which pre post dv hatom hqueue hpre hdv]
  by_cases hp : dv.report.xselection.property = None
  · simp only [hp, if_true]
    refine ⟨rfl, ?_⟩
    intro s cs1 h
    cases h
    rfl
  · simp only [hp, if_false]
    cases hb : dv.props cs.myWindow dv.report.xselection.property
    · refine ⟨rfl, ?_⟩
      intro s cs1 h
      cases h
    · refine ⟨rfl, ?_⟩
      intro s cs1 h
      cases h
      rfl

/-- C9, amended, at a concrete display: a `MappingNotify` is dropped, then the
`SelectionNotify` about `CLIPBOARD` decides the call for `PRIMARY`. -/
theorem getData_first_notify_decides_witness :
    (getData (exClient (exDisplay winX None
        (mappingNotify noProps :: staleDisplay.queue))) "PRIMARY").map Prod.fst =
        (if (refusal clipboardAtom noProps).report.xselection.property = None then
           Except.ok ""
         else stdString (((refusal clipboardAtom noProps).props exWindow
            (refusal clipboardAtom noProps).report.xselection.property).map cstr)) ∧
      ∀ s cs1, getData (exClient (exDisplay winX None
        (mappingNotify noProps :: staleDisplay.queue))) "PRIMARY" = Except.ok (s, cs1) →
        cs1.display.queue = [reply primaryAtom "hello"] :=
  getData_first_notify_decides
    (exClient (exDisplay winX None (mappingNotify noProps :: staleDisplay.queue)))
    "PRIMARY" [mappingNotify noProps] [reply primaryAtom "hello"]
    (refusal clipboardAtom noProps) (by decide) rfl (by decide) rfl

/-! ## Helper lemmas: saveDb and the loop -/

theorem saveDb_accepted (which data owner : String) (stmt : SaveAnswers)
    (h : stmt.accepted) :
    saveDb which data owner stmt =
      Except.ok { ts := stmt.timebuf, name := which, owner := owner, data := data } := by
  obtain ⟨h1, h2, h3, h4, h5⟩ := h
  simp [saveDb, h1, h2, h3, h4, h5]

theorem saveDb_ok (which data owner : String) (stmt : SaveAnswers) (r : Record)
    (h : saveDb which data owner stmt = Except.ok r) :
    r = { ts := stmt.timebuf, name := which, owner := owner, data := data } := by
  unfold saveDb at h
  split_ifs at h
  cases h
  rfl

theorem callSaveDb_accepted (which data owner : String) (stmt : SaveAnswers) (p : Progress)
    (h : stmt.accepted) :
    callSaveDb which data owner stmt p =
      ({ calls := p.calls ++ [Call.saveDb which data owner],
         rows := p.rows ++
           [{ ts := stmt.timebuf, name := which, owner := owner, data := data }] }, none) := by
  simp [callSaveDb, saveDb_accepted which data owner stmt h]

/-- The rows a call of `saveDb` adds: none when it throws, else the one row. -/
theorem callSaveDb_rows (which data owner : String) (stmt : SaveAnswers) (p : Progress) :
    ((callSaveDb which data owner stmt p).2 ≠ none ∧
        (callSaveDb which data owner stmt p).1.rows = p.rows) ∨
      ((callSaveDb which data owner stmt p).2 = none ∧
        (callSaveDb which data owner stmt p).1.rows = p.rows ++
          [{ ts := stmt.timebuf, name := which, owner := owner, data := data }]) := by
  unfold callSaveDb
  cases h : saveDb which data owner stmt with
  | error e => left; simp
  | ok r => right; simp [saveDb_ok which data owner stmt r h]


/-! ## The polling loop: claims about one pass -/

/-- The pass that reads a pair equal to `lastData`. -/
theorem dbStoreBody_same (cs cs1 : ClipSniff) (lastData data : String × String)
    (stmt1 stmt2 : SaveAnswers)
    (hget : get cs = Except.ok (data, cs1)) (hsame : data = lastData) :
    dbStoreBody cs lastData stmt1 stmt2 =
      { calls := [Call.get, Call.sleep 1], rows := [], lastData := Except.ok lastData } := by
  unfold dbStoreBody
  simp only [hget, hsame, if_true]

/-- C1: in a pass of the loop in which `get()` returns a pair equal to `lastData`, the body
calls `get` and `sleep(1)` and nothing else: no `getOwners`, no `saveDb`; no row is
inserted and `lastData` keeps its value. -/
theorem dbStoreBody_unchanged (cs cs1 : ClipSniff) (lastData data : String × String)
    (stmt1 stmt2 : SaveAnswers)
    (hget : get cs = Except.ok (data, cs1)) (hsame : data = lastData) :
    (dbStoreBody cs lastData stmt1 stmt2).calls = [Call.get, Call.sleep 1] ∧
      Call.getOwners ∉ (dbStoreBody cs lastData stmt1 stmt2).calls ∧
      (∀ which d owner,
        Call.saveDb which d owner ∉ (dbStoreBody cs lastData stmt1 stmt2).calls) ∧
      (dbStoreBody cs lastData stmt1 stmt2).rows = [] ∧
      (dbStoreBody cs lastData stmt1 stmt2).lastData = Except.ok lastData := by
  rw [dbStoreBody_same cs cs1 lastData data stmt1 stmt2 hget hsame]
  simp

/-- C1 at a concrete display: neither selection is owned and `lastData` is the initial
pair. -/
theorem dbStoreBody_unchanged_witness :
    (dbStoreBody (exClient idleDisplay) ("", "") (accepting "t1") (accepting "t2")).calls
        = [Call.get, Call.sleep 1] ∧
      Call.getOwners ∉
        (dbStoreBody (exClient idleDisplay) ("", "") (accepting "t1") (accepting "t2")).calls ∧
      (∀ which d owner, Call.saveDb which d owner ∉
        (dbStoreBody (exClient idleDisplay) ("", "") (accepting "t1") (accepting "t2")).calls) ∧
      (dbStoreBody (exClient idleDisplay) ("", "") (accepting "t1") (accepting "t2")).rows
        = [] ∧
      (dbStoreBody (exClient idleDisplay) ("", "") (accepting "t1") (accepting "t2")).lastData
        = Except.ok ("", "") :=
  dbStoreBody_unchanged (exClient idleDisplay) _ ("", "") ("", "") (accepting "t1")
    (accepting "t2") rfl rfl

/-- C2 as stated fails: `lastData` is ("secret", "note"), `PRIMARY` has lost its owner
and reads as empty, `CLIPBOARD` is unchanged.  Exactly one field differs, yet no row is
inserted: `getOwners` throws and the exception leaves the loop. -/
theorem dbStoreBody_lost_owner_no_row :
    (∃ cs1, get (exClient lostDisplay) = Except.ok (("", "note"), cs1)) ∧
    ("" ≠ "secret" ∧ "note" = "note") ∧
    (accepting "t1").accepted ∧ (accepting "t2").accepted ∧
    (dbStoreBody (exClient lostDisplay) ("secret", "note") (accepting "t1")
        (accepting "t2")).calls = [Call.get, Call.getOwners] ∧
    (dbStoreBody (exClient lostDisplay) ("secret", "note") (accepting "t1")
        (accepting "t2")).rows = [] ∧
    (dbStoreBody (exClient lostDisplay) ("secret", "note") (accepting "t1")
        (accepting "t2")).lastData
      = Except.error (Fault.ErrBase "Can't get selection owner") :=
  ⟨⟨_, rfl⟩, by decide, by decide, by decide, rfl, rfl, rfl⟩

/-- C2, amended: in a pass in which exactly one field of the pair returned by `get()`
differs from `lastData`, `getOwners()` returns `owners`, and SQLite accepts the row,
exactly one row is inserted; its name is "PRIMARY" when the first field changed and
"CLIPBOARD" when the second did, its owner and data are the matching fields of `owners`
and of the current pair, and `lastData` becomes the whole current pair. -/
theorem dbStoreBody_one_change (cs cs1 cs2 : ClipSniff) (lastData data owners : String × String)
    (stmt1 stmt2 : SaveAnswers)
    (hget : get cs = Except.ok (data, cs1))
    (hone : (data.1 ≠ lastData.1 ∧ data.2 = lastData.2) ∨
      (data.1 = lastData.1 ∧ data.2 ≠ lastData.2))
    (howners : getOwners cs1 = Except.ok (owners, cs2))
    (hstmt1 : stmt1.accepted) (hstmt2 : stmt2.accepted) :
    (dbStoreBody cs lastData stmt1 stmt2).rows =
        [if data.1 ≠ lastData.1 then
           { ts := stmt1.timebuf, name := "PRIMARY", owner := owners.1, data := data.1 }
         else
           { ts := stmt2.timebuf, name := "CLIPBOARD", owner := owners.2, data := data.2 }] ∧
      (dbStoreBody cs lastData stmt1 stmt2).lastData = Except.ok data := by
  have hne : ¬ data = lastData := by
    intro h
    rcases hone with ⟨h1, _⟩ | ⟨_, h2⟩
    · exact h1 (by rw [h])
    · exact h2 (by rw [h])
  unfold dbStoreBody
  simp only [hget, hne, if_false, howners]
  rcases hone with ⟨h1, h2⟩ | ⟨h1, h2⟩
  · simp [h1, h2, callSaveDb_accepted _ _ _ _ _ hstmt1]
  · simp [h1, h2, callSaveDb_accepted _ _ _ _ _ hstmt2]

/-- C2, amended, at a concrete display: `lastData` is ("a", "old"), `PRIMARY` still holds
"a" and `CLIPBOARD` now holds "b". -/
theorem dbStoreBody_one_change_witness :
    (dbStoreBody (exClient bothDisplay) ("a", "old") (accepting "t1") (accepting "t2")).rows =
        [if ("a", "b").1 ≠ ("a", "old").1 then
           { ts := (accepting "t1").timebuf, name := "PRIMARY", owner := ("AppX", "AppY").1,
             data := ("a", "b").1 }
         else
           { ts := (accepting "t2").timebuf, name := "CLIPBOARD", owner := ("AppX", "AppY").2,
             data := ("a", "b").2 }] ∧
      (dbStoreBody (exClient bothDisplay) ("a", "old") (accepting "t1")
        (accepting "t2")).lastData = Except.ok ("a", "b") :=
  dbStoreBody_one_change (exClient bothDisplay) _ _ ("a", "old") ("a", "b") ("AppX", "AppY")
    (accepting "t1") (accepting "t2") rfl (by decide) rfl (by decide) (by decide)

/-- C3: in a pass in which both fields of the pair returned by `get()` differ from
`lastData`, `getOwners()` returns `(o1, o2)` and SQLite accepts the rows, exactly two rows
are inserted, first the one of "PRIMARY" with owner `o1` and the first field, then the
one of "CLIPBOARD" with owner `o2` and the second field, each with the time `saveDb`
read when it was called; the body calls `getOwners` once, before both. -/
theorem dbStoreBody_both_change (cs cs1 cs2 : ClipSniff) (lastData data : String × String)
    (o1 o2 : String) (stmt1 stmt2 : SaveAnswers)
    (hget : get cs = Except.ok (data, cs1))
    (hfirst : data.1 ≠ lastData.1) (hsecond : data.2 ≠ lastData.2)
    (howners : getOwners cs1 = Except.ok ((o1, o2), cs2))
    (hstmt1 : stmt1.accepted) (hstmt2 : stmt2.accepted) :
    (dbStoreBody cs lastData stmt1 stmt2).rows =
        [{ ts := stmt1.timebuf, name := "PRIMARY", owner := o1, data := data.1 },
         { ts := stmt2.timebuf, name := "CLIPBOARD", owner := o2, data := data.2 }] ∧
      (dbStoreBody cs lastData stmt1 stmt2).calls =
        [Call.get, Call.getOwners, Call.saveDb "PRIMARY" data.1 o1,
         Call.saveDb "CLIPBOARD" data.2 o2] ∧
      (dbStoreBody cs lastData stmt1 stmt2).lastData = Except.ok data := by
  have hne : ¬ data = lastData := fun h => hfirst (by rw [h])
  unfold dbStoreBody
  simp only [hget, hne, if_false, howners]
  simp [hfirst, hsecond, callSaveDb_accepted _ _ _ _ _ hstmt1,
    callSaveDb_accepted _ _ _ _ _ hstmt2]

/-- C3 at the display of the claim: owners "AppX" and "AppY", contents "a" and "b",
`lastData` the initial empty pair. -/
theorem dbStoreBody_both_change_witness :
    (dbStoreBody (exClient bothDisplay) initialLastData (accepting "t1")
        (accepting "t2")).rows =
        [{ ts := "t1", name := "PRIMARY", owner := "AppX", data := "a" },
         { ts := "t2", name := "CLIPBOARD", owner := "AppY", data := "b" }] ∧
      (dbStoreBody (exClient bothDisplay) initialLastData (accepting "t1")
        (accepting "t2")).calls =
        [Call.get, Call.getOwners, Call.saveDb "PRIMARY" "a" "AppX",
         Call.saveDb "CLIPBOARD" "b" "AppY"] ∧
      (dbStoreBody (exClient bothDisplay) initialLastData (accepting "t1")
        (accepting "t2")).lastData = Except.ok ("a", "b") :=
  dbStoreBody_both_change (exClient bothDisplay) _ _ initialLastData ("a", "b") "AppX" "AppY"
    (accepting "t1") (accepting "t2") rfl (by decide) (by decide) rfl (by decide) (by decide)


/-! ## The polling loop: runs -/

theorem awaitNotify_frame (myWindow : Window) (q : List Delivery) :
    ∀ (d d1 : Display) (s : String),
      awaitNotify myWindow d q = Except.ok (s, d1) → SameServer d d1 := by
  induction q with
  | nil => intro d d1 s h; simp [awaitNotify] at h
  | cons dv rest ih =>
    intro d d1 s h
    simp only [awaitNotify, XNextEvent] at h
    split_ifs at h with h1 h2
    · cases h
      exact ⟨rfl, rfl, rfl⟩
    · simp only [XGetWindowProperty] at h
      cases hb : dv.props myWindow dv.report.xselection.property with
      | none => rw [hb] at h; simp [stdString] at h
      | some buf =>
        rw [hb] at h
        simp only [Option.map_some', stdString, Except.ok.injEq, Prod.mk.injEq] at h
        rw [← h.2]
        exact ⟨rfl, rfl, rfl⟩
    · have hh := ih _ d1 s h
      exact ⟨hh.1, hh.2.1, hh.2.2⟩

theorem getData_frame (cs cs1 : ClipSniff) (which s : String)
    (h : getData cs which = Except.ok (s, cs1)) :
    SameServer cs.display cs1.display ∧ cs1.myWindow = cs.myWindow := by
  unfold getData at h
  by_cases ha : (XInternAtom cs.display which).1 = None
  · rw [getAtom_error cs which ha] at h
    simp at h
  · rw [getAtom_ok cs which ha] at h
    simp only at h
    split at h
    · simp at h
    · rename_i s2 d2 heq
      simp only [Except.ok.injEq, Prod.mk.injEq] at h
      have hf := awaitNotify_frame _ _ _ _ _ heq
      rw [← h.2]
      exact ⟨⟨hf.1, hf.2.1, hf.2.2⟩, rfl⟩

theorem get_frame (cs cs1 : ClipSniff) (data : String × String)
    (h : get cs = Except.ok (data, cs1)) :
    SameServer cs.display cs1.display := by
  unfold get at h
  cases h1 : getData cs "PRIMARY" with
  | error e => rw [h1] at h; simp at h
  | ok r1 =>
    obtain ⟨p, c1⟩ := r1
    rw [h1] at h
    simp only at h
    cases h2 : getData c1 "CLIPBOARD" with
    | error e => rw [h2] at h; simp at h
    | ok r2 =>
      obtain ⟨c, c2⟩ := r2
      rw [h2] at h
      simp only [Except.ok.injEq, Prod.mk.injEq] at h
      have f1 := (getData_frame _ _ _ _ h1).1
      have f2 := (getData_frame _ _ _ _ h2).1
      rw [← h.2]
      exact ⟨f2.1.trans f1.1, f2.2.1.trans f1.2.1, f2.2.2.trans f1.2.2⟩

theorem XInternAtom_sameServer (d d1 : Display) (name : String) (h : SameServer d d1) :
    (XInternAtom d1 name).1 = (XInternAtom d name).1 := by
  unfold XInternAtom
  simp only [h.1]

/-- What `getOwners` does when an owner is missing: it throws. -/
theorem getOwners_throws (cs : ClipSniff)
    (hP : (XInternAtom cs.display "PRIMARY").1 ≠ None)
    (hC : (XInternAtom cs.display "CLIPBOARD").1 ≠ None)
    (hname : cs.display.selectionOwner (XInternAtom cs.display "PRIMARY").1 ≠ None →
      cs.display.wmName (cs.display.selectionOwner (XInternAtom cs.display "PRIMARY").1)
        ≠ none)
    (hmiss : cs.display.selectionOwner (XInternAtom cs.display "PRIMARY").1 = None ∨
      cs.display.selectionOwner (XInternAtom cs.display "CLIPBOARD").1 = None) :
    getOwners cs = Except.error (Fault.ErrBase "Can't get selection owner") := by
  unfold getOwners
  rw [getOwner_spec cs "PRIMARY" hP]
  by_cases ho : cs.display.selectionOwner (XInternAtom cs.display "PRIMARY").1 = None
  · simp [ho]
  · simp only [ho, if_false]
    cases hn : cs.display.wmName
        (cs.display.selectionOwner (XInternAtom cs.display "PRIMARY").1) with
    | none => exact absurd hn (hname ho)
    | some name =>
      simp only
      have hc2 : cs.display.selectionOwner (XInternAtom cs.display "CLIPBOARD").1 = None := by
        rcases hmiss with h | h
        · exact absurd h ho
        · exact h
      rw [getOwner_spec _ "CLIPBOARD" (by simpa [XInternAtom] using hC)]
      simp only [XInternAtom] at hc2 ⊢
      simp [hc2]

theorem dbStoreLoop_cons (displayName : String) (myWindow : Window)
    (lastData : String × String) (w : World) (ws : List World) :
    dbStoreLoop displayName myWindow lastData (w :: ws) =
      match (dbStoreBody (w.cs displayName myWindow) lastData w.stmt1 w.stmt2).lastData with
      | Except.error _ =>
        dbStoreBody (w.cs displayName myWindow) lastData w.stmt1 w.stmt2
      | Except.ok next =>
        { calls := (dbStoreBody (w.cs displayName myWindow) lastData w.stmt1 w.stmt2).calls ++
                    (dbStoreLoop displayName myWindow next ws).calls,
          rows := (dbStoreBody (w.cs displayName myWindow) lastData w.stmt1 w.stmt2).rows ++
                    (dbStoreLoop displayName myWindow next ws).rows,
          lastData := (dbStoreLoop displayName myWindow next ws).lastData } := by
  simp only [dbStoreLoop]
  generalize dbStoreBody _ lastData w.stmt1 w.stmt2 = pass
  obtain ⟨c, r, l⟩ := pass
  cases l <;> rfl

/-- What a pass does when the pair changed and an owner is missing. -/
theorem dbStoreBody_owner_missing (cs cs1 : ClipSniff) (lastData data : String × String)
    (stmt1 stmt2 : SaveAnswers) (e : Fault)
    (hget : get cs = Except.ok (data, cs1)) (hne : data ≠ lastData)
    (howners : getOwners cs1 = Except.error e) :
    dbStoreBody cs lastData stmt1 stmt2 =
      { calls := [Call.get, Call.getOwners], rows := [], lastData := Except.error e } := by
  unfold dbStoreBody
  simp only [hget, hne, if_false, howners]


/-- C4 as stated fails: the loop starts from the empty pair, the first pass finds neither
selection owned, the second finds `PRIMARY` owned by AppX with "hello" and `CLIPBOARD`
unowned and empty.  The second pass inserts no row: `getOwners` throws
"Can't get selection owner" and the exception leaves the loop. -/
theorem dbStoreLoop_hello_no_row :
    (∃ cs1, get (idleWorld.cs ":0" exWindow) = Except.ok (("", ""), cs1)) ∧
    (∃ cs1, get (helloWorld.cs ":0" exWindow) = Except.ok (("hello", ""), cs1)) ∧
    (∃ cs1, getOwner (helloWorld.cs ":0" exWindow) "PRIMARY" = Except.ok ("AppX", cs1)) ∧
    helloDisplay.selectionOwner (XInternAtom helloDisplay "CLIPBOARD").1 = None ∧
    (dbStoreLoop ":0" exWindow initialLastData [idleWorld, helloWorld]).calls
      = [Call.get, Call.sleep 1, Call.get, Call.getOwners] ∧
    (dbStoreLoop ":0" exWindow initialLastData [idleWorld, helloWorld]).rows = [] ∧
    (dbStoreLoop ":0" exWindow initialLastData [idleWorld, helloWorld]).lastData
      = Except.error (Fault.ErrBase "Can't get selection owner") :=
  ⟨⟨_, rfl⟩, ⟨_, rfl⟩, ⟨_, rfl⟩, by decide, rfl, rfl, rfl⟩

/-- Passes that read a pair equal to `lastData` only add their calls to the run. -/
theorem dbStoreLoop_idle_passes (displayName : String) (myWindow : Window)
    (lastData : String × String) (rest : List World) (idles : List World)
    (hidle : ∀ i ∈ idles, ∃ c, get (i.cs displayName myWindow) = Except.ok (lastData, c)) :
    dbStoreLoop displayName myWindow lastData (idles ++ rest) =
      { calls := (idles.map (fun _ => [Call.get, Call.sleep 1])).flatten ++
                   (dbStoreLoop displayName myWindow lastData rest).calls,
        rows := (dbStoreLoop displayName myWindow lastData rest).rows,
        lastData := (dbStoreLoop displayName myWindow lastData rest).lastData } := by
  induction idles with
  | nil => simp
  | cons i idles ih =>
    obtain ⟨c, hc⟩ := hidle i (List.mem_cons_self _ _)
    have hb := dbStoreBody_same (i.cs displayName myWindow) c lastData lastData
      i.stmt1 i.stmt2 hc rfl
    rw [List.cons_append, dbStoreLoop_cons, hb]
    simp only
    rw [ih (fun j hj => hidle j (List.mem_cons_of_mem _ hj))]
    simp

/-- C4, amended: the loop starts from the empty pair; any number of passes read two
empty selections; the next pass reads a non-empty `PRIMARY`, owned by a window with a
name, and an empty `CLIPBOARD` that has no owner.  Then that pass calls `getOwners`, which
throws "Can't get selection owner"; the exception leaves the loop and no row has been
inserted, neither for `PRIMARY` nor for `CLIPBOARD`. -/
theorem dbStoreLoop_change_with_unowned_clipboard (displayName : String) (myWindow : Window)
    (idles : List World) (w : World) (content owner : String) (cs1 : ClipSniff)
    (hidle : ∀ i ∈ idles, ∃ c, get (i.cs displayName myWindow) = Except.ok (("", ""), c))
    (hget : get (w.cs displayName myWindow) = Except.ok ((content, ""), cs1))
    (hcontent : content ≠ "")
    (hP : (XInternAtom w.display "PRIMARY").1 ≠ None)
    (hC : (XInternAtom w.display "CLIPBOARD").1 ≠ None)
    (howner : w.display.wmName (w.display.selectionOwner (XInternAtom w.display "PRIMARY").1)
      = some owner)
    (hnone : w.display.selectionOwner (XInternAtom w.display "CLIPBOARD").1 = None) :
    (dbStoreLoop displayName myWindow initialLastData (idles ++ [w])).calls
        = (idles.map (fun _ => [Call.get, Call.sleep 1])).flatten ++
            [Call.get, Call.getOwners] ∧
      (dbStoreLoop displayName myWindow initialLastData (idles ++ [w])).rows = [] ∧
      (dbStoreLoop displayName myWindow initialLastData (idles ++ [w])).lastData
        = Except.error (Fault.ErrBase "Can't get selection owner") := by
  have hf := get_frame _ _ _ hget
  have hf2 : cs1.display.selectionOwner = w.display.selectionOwner := hf.2.1
  have hf3 : cs1.display.wmName = w.display.wmName := hf.2.2
  have hi : ∀ name, (XInternAtom cs1.display name).1 = (XInternAtom w.display name).1 :=
    fun name => XInternAtom_sameServer w.display cs1.display name hf
  have hthrow : getOwners cs1 = Except.error (Fault.ErrBase "Can't get selection owner") := by
    apply getOwners_throws
    · rw [hi]; exact hP
    · rw [hi]; exact hC
    · intro _
      rw [hi, hf2, hf3, howner]
      simp
    · right
      rw [hi, hf2]
      exact hnone
  have hne : (content, "") ≠ initialLastData := by
    intro h
    exact hcontent (congrArg Prod.fst h)
  have h2 := dbStoreBody_owner_missing (w.cs displayName myWindow) cs1 initialLastData
    (content, "") w.stmt1 w.stmt2 _ hget hne hthrow
  rw [dbStoreLoop_idle_passes displayName myWindow initialLastData [w] idles hidle,
    dbStoreLoop_cons, h2]
  simp

/-- C4, amended, at the displays of the claim: one pass with neither selection owned, then
`PRIMARY` owned by AppX with "hello". -/
theorem dbStoreLoop_change_with_unowned_clipboard_witness :
    (dbStoreLoop ":0" exWindow initialLastData ([idleWorld] ++ [helloWorld])).calls
        = ([idleWorld].map (fun _ => [Call.get, Call.sleep 1])).flatten ++
            [Call.get, Call.getOwners] ∧
      (dbStoreLoop ":0" exWindow initialLastData ([idleWorld] ++ [helloWorld])).rows = [] ∧
      (dbStoreLoop ":0" exWindow initialLastData ([idleWorld] ++ [helloWorld])).lastData
        = Except.error (Fault.ErrBase "Can't get selection owner") :=
  dbStoreLoop_change_with_unowned_clipboard ":0" exWindow [idleWorld] helloWorld "hello" "AppX"
    _ (fun i hi => by
        rw [List.mem_singleton] at hi
        rw [hi]
        exact ⟨_, rfl⟩)
    rfl (by decide) (by decide) (by decide) (by decide) (by decide)

/-- The rows of one pass: at most one for "PRIMARY", then at most one for "CLIPBOARD",
each only when its field changed; when the pass ends normally `lastData` is the pair that
was read and a field without a row is unchanged. -/
theorem dbStoreBody_rows (cs : ClipSniff) (lastData : String × String)
    (stmt1 stmt2 : SaveAnswers) :
    ∃ (a b : Bool) (data owners : String × String),
      (dbStoreBody cs lastData stmt1 stmt2).rows =
        (if a then [{ ts := stmt1.timebuf, name := "PRIMARY", owner := owners.1,
                      data := data.1 }] else []) ++
        (if b then [{ ts := stmt2.timebuf, name := "CLIPBOARD", owner := owners.2,
                      data := data.2 }] else []) ∧
      (a = true → data.1 ≠ lastData.1) ∧ (b = true → data.2 ≠ lastData.2) ∧
      ∀ next, (dbStoreBody cs lastData stmt1 stmt2).lastData = Except.ok next →
        next = data ∧ (a = false → data.1 = lastData.1) ∧
          (b = false → data.2 = lastData.2) := by
  unfold dbStoreBody
  cases hg : get cs with
  | error e => exact ⟨false, false, lastData, lastData, by simp⟩
  | ok r =>
    obtain ⟨data, cs1⟩ := r
    simp only
    by_cases hsame : data = lastData
    · exact ⟨false, false, lastData, lastData, by simp [hsame]⟩
    · simp only [hsame, if_false]
      cases ho : getOwners cs1 with
      | error e => exact ⟨false, false, lastData, lastData, by simp⟩
      | ok r2 =>
        obtain ⟨owners, cs2⟩ := r2
        simp only
        by_cases h1 : data.1 = lastData.1
        · simp only [h1, ne_eq, not_true_eq_false, if_false]
          by_cases h2 : data.2 = lastData.2
          · exact absurd (Prod.ext h1 h2) hsame
          · simp only [h2, not_false_eq_true, if_true]
            rcases callSaveDb_rows "CLIPBOARD" data.2 owners.2 stmt2
                { calls := [Call.get, Call.getOwners], rows := [] } with ⟨hf, hr⟩ | ⟨hf, hr⟩
            · refine ⟨false, false, data, owners, ?_⟩
              generalize callSaveDb "CLIPBOARD" data.2 owners.2 stmt2
                { calls := [Call.get, Call.getOwners], rows := [] } = res at hf hr
              obtain ⟨q, f⟩ := res
              cases f with
              | none => exact absurd rfl hf
              | some e => simp at hr; simp [hr]
            · refine ⟨false, true, data, owners, ?_⟩
              generalize callSaveDb "CLIPBOARD" data.2 owners.2 stmt2
                { calls := [Call.get, Call.getOwners], rows := [] } = res at hf hr
              obtain ⟨q, f⟩ := res
              cases f with
              | none => simp at hr; simp [hr, h1, h2]
              | some e => simp at hf
        · simp only [ne_eq, h1, not_false_eq_true, if_true]
          rcases callSaveDb_rows "PRIMARY" data.1 owners.1 stmt1
              { calls := [Call.get, Call.getOwners], rows := [] } with ⟨hf, hr⟩ | ⟨hf, hr⟩
          · refine ⟨false, false, data, owners, ?_⟩
            generalize callSaveDb "PRIMARY" data.1 owners.1 stmt1
              { calls := [Call.get, Call.getOwners], rows := [] } = res at hf hr
            obtain ⟨p, f⟩ := res
            cases f with
            | none => exact absurd rfl hf
            | some e => simp at hr; simp [hr]
          · generalize callSaveDb "PRIMARY" data.1 owners.1 stmt1
              { calls := [Call.get, Call.getOwners], rows := [] } = res at hf hr
            obtain ⟨p, f⟩ := res
            cases f with
            | some e => simp at hf
            | none =>
              simp only [List.nil_append] at hr
              simp only
              by_cases h2 : data.2 = lastData.2
              · refine ⟨true, false, data, owners, ?_⟩
                simp [h2, hr, h1]
              · simp only [h2, not_false_eq_true, if_true]
                rcases callSaveDb_rows "CLIPBOARD" data.2 owners.2 stmt2 p
                  with ⟨hf2, hr2⟩ | ⟨hf2, hr2⟩
                · refine ⟨true, false, data, owners, ?_⟩
                  generalize callSaveDb "CLIPBOARD" data.2 owners.2 stmt2 p = res2 at hf2 hr2
                  obtain ⟨q, f2⟩ := res2
                  cases f2 with
                  | none => exact absurd rfl hf2
                  | some e => simp at hr2; simp [hr2, hr, h1]
                · refine ⟨true, true, data, owners, ?_⟩
                  generalize callSaveDb "CLIPBOARD" data.2 owners.2 stmt2 p = res2 at hf2 hr2
                  obtain ⟨q, f2⟩ := res2
                  cases f2 with
                  | some e => simp at hf2
                  | none => simp at hr2; simp [hr2, hr, h1, h2]


theorem rowsOf_append (sel : String) (xs ys : List Record) :
    rowsOf sel (xs ++ ys) = rowsOf sel xs ++ rowsOf sel ys := by
  unfold rowsOf
  exact List.filter_append xs ys

/-- From the contents to the rows: a chain of unequal contents that starts at `x`. -/
theorem chain_rows_of_chain_data (x : String) (l : List Record)
    (h : List.Chain (fun a b => a ≠ b) x (l.map Record.data)) :
    List.Chain' (fun r s => r.data ≠ s.data) l ∧ ∀ r, l.head? = some r → r.data ≠ x := by
  cases l with
  | nil => simp
  | cons r t =>
    simp only [List.map_cons, List.chain_cons] at h
    refine ⟨(List.chain_map Record.data).1 h.2, ?_⟩
    intro r2 hr2
    simp only [List.head?_cons, Option.some.injEq] at hr2
    rw [← hr2]
    exact fun e => h.1 e.symm

/-- The invariant of the loop: for each selection, the contents of its rows differ from
one row to the next, and the first differs from the field of `lastData` the loop was
entered with. -/
theorem dbStoreLoop_chain (displayName : String) (myWindow : Window) (ws : List World) :
    ∀ lastData : String × String,
      List.Chain (fun a b => a ≠ b) lastData.1
        ((rowsOf "PRIMARY" (dbStoreLoop displayName myWindow lastData ws).rows).map
          Record.data) ∧
      List.Chain (fun a b => a ≠ b) lastData.2
        ((rowsOf "CLIPBOARD" (dbStoreLoop displayName myWindow lastData ws).rows).map
          Record.data) ∧
      ∀ r ∈ (dbStoreLoop displayName myWindow lastData ws).rows,
        r.name = "PRIMARY" ∨ r.name = "CLIPBOARD" := by
  induction ws with
  | nil => intro lastData; simp [dbStoreLoop, rowsOf]
  | cons w ws ih =>
    intro lastData
    rw [dbStoreLoop_cons]
    obtain ⟨a, b, data, owners, hrows, ha, hb, hnext⟩ :=
      dbStoreBody_rows (w.cs displayName myWindow) lastData w.stmt1 w.stmt2
    have hP : (rowsOf "PRIMARY"
        (dbStoreBody (w.cs displayName myWindow) lastData w.stmt1 w.stmt2).rows).map Record.data
        = if a then [data.1] else [] := by
      rw [hrows]
      cases a <;> cases b <;> simp [rowsOf]
    have hC : (rowsOf "CLIPBOARD"
        (dbStoreBody (w.cs displayName myWindow) lastData w.stmt1 w.stmt2).rows).map Record.data
        = if b then [data.2] else [] := by
      rw [hrows]
      cases a <;> cases b <;> simp [rowsOf]
    have hN : ∀ r ∈ (dbStoreBody (w.cs displayName myWindow) lastData w.stmt1 w.stmt2).rows,
        r.name = "PRIMARY" ∨ r.name = "CLIPBOARD" := by
      rw [hrows]
      intro r hr
      cases a <;> cases b <;> simp at hr
      · exact Or.inr (by rw [hr])
      · exact Or.inl (by rw [hr])
      · rcases hr with hr | hr
        · exact Or.inl (by rw [hr])
        · exact Or.inr (by rw [hr])
    cases hl : (dbStoreBody (w.cs displayName myWindow) lastData w.stmt1 w.stmt2).lastData with
    | error e =>
      simp only
      rw [hP, hC]
      refine ⟨?_, ?_, hN⟩
      · cases a
        · simp
        · simpa using fun e => ha rfl e.symm
      · cases b
        · simp
        · simpa using fun e => hb rfl e.symm
    | ok next =>
      simp only
      obtain ⟨hnd, hna, hnb⟩ := hnext next hl
      subst hnd
      obtain ⟨ih1, ih2, ih3⟩ := ih next
      rw [rowsOf_append, rowsOf_append, List.map_append, List.map_append, hP, hC]
      refine ⟨?_, ?_, ?_⟩
      · cases a
        · have : lastData.1 = next.1 := (hna rfl).symm
          simpa [this] using ih1
        · have hne : ¬ lastData.1 = next.1 := fun e => ha rfl e.symm
          simpa [hne] using ih1
      · cases b
        · have : lastData.2 = next.2 := (hnb rfl).symm
          simpa [this] using ih2
        · have hne : ¬ lastData.2 = next.2 := fun e => hb rfl e.symm
          simpa [hne] using ih2
      · intro r hr
        rcases List.mem_append.1 hr with h | h
        · exact hN r h
        · exact ih3 r h

/-- C10: over any finite run of the loop from the initial empty pair, whatever the passes
read and whether or not an owner lookup or an insertion throws, the rows inserted for one
selection never repeat a content from one row to the next, and the first row of a
selection does not have the empty content. -/
theorem dbStoreLoop_no_repeated_content (displayName : String) (myWindow : Window)
    (ws : List World) (sel : String) :
    List.Chain' (fun r s => r.data ≠ s.data)
        (rowsOf sel (dbStoreLoop displayName myWindow initialLastData ws).rows) ∧
      ∀ r, (rowsOf sel (dbStoreLoop displayName myWindow initialLastData ws).rows).head?
        = some r → r.data ≠ "" := by
  obtain ⟨h1, h2, h3⟩ := dbStoreLoop_chain displayName myWindow ws initialLastData
  by_cases hp : sel = "PRIMARY"
  · rw [hp]
    exact chain_rows_of_chain_data "" _ h1
  · by_cases hc : sel = "CLIPBOARD"
    · rw [hc]
      exact chain_rows_of_chain_data "" _ h2
    · have hnil : rowsOf sel (dbStoreLoop displayName myWindow initialLastData ws).rows
          = [] := by
        unfold rowsOf
        rw [List.filter_eq_nil_iff]
        intro r hr
        rcases h3 r hr with h | h
        · simp [h, Ne.symm hp]
        · simp [h, Ne.symm hc]
      rw [hnil]
      simp


/-- A run of three passes: nothing owned, then "a" and "b" appear, then nothing changes.
Two rows are inserted, both by the second pass. -/
theorem dbStoreLoop_example_run :
    (dbStoreLoop ":0" exWindow initialLastData [idleWorld, bothWorld, bothWorld]).rows =
        [{ ts := "t5", name := "PRIMARY", owner := "AppX", data := "a" },
         { ts := "t6", name := "CLIPBOARD", owner := "AppY", data := "b" }] ∧
      (dbStoreLoop ":0" exWindow initialLastData [idleWorld, bothWorld, bothWorld]).calls =
        [Call.get, Call.sleep 1,
         Call.get, Call.getOwners, Call.saveDb "PRIMARY" "a" "AppX",
         Call.saveDb "CLIPBOARD" "b" "AppY",
         Call.get, Call.sleep 1] ∧
      (dbStoreLoop ":0" exWindow initialLastData [idleWorld, bothWorld, bothWorld]).lastData =
        Except.ok ("a", "b") :=
  ⟨rfl, rfl, rfl⟩


end Clipsniff
